import Mathlib

attribute [local semireducible] Rat.mul Rat.inv Rat.add Rat.sub

/-!
Shallow embedding of the PokeProtocol repository (src/Pokeprotocol) in Lean 4:
the combat engine (pokemon.py), the reliable transport (network.py) and the
Host/Joiner/Spectator session state machines (peers.py).

Python dictionaries with `.get` defaults are embedded as structures with
`Option` fields; numeric values are embedded as `Int` (stats, hit points) and
`ℚ` (effectiveness multipliers, exact stand-in for Python floats); Python's
banker's rounding `round` is embedded exactly (`pyRound`); Python string
truthiness (`if not x`) on optional strings is embedded by `strFalsy`.
-/

/-- Floor of a rational as an integer, via flooring integer division. -/
def ratFloor (q : ℚ) : Int := Int.fdiv q.num q.den

/-- Python 3 `round` on an exact rational: round half to even (banker's
rounding), as applied by `int(round(raw))` in pokemon.py line 119. -/
def pyRound (q : ℚ) : Int :=
  let f := ratFloor q
  let frac := q - (f : ℚ)
  if frac < 1/2 then f
  else if 1/2 < frac then f + 1
  else if f % 2 = 0 then f else f + 1

/-- Python `str.capitalize()`: first character upper-cased, the rest
lower-cased (ASCII behaviour, which covers all type names used here). -/
def pyCapitalize (s : String) : String :=
  match s.data with
  | [] => ""
  | c :: cs => String.mk (c.toUpper :: cs.map Char.toLower)

/-- Python truthiness test `if not x` for an optional string:
`None` and the empty string are falsy. -/
def strFalsy : Option String → Bool
  | none => true
  | some s => s = ""

/-- Python `x or default` on an optional string (falsy values replaced). -/
def pyOrStr (o : Option String) (d : String) : String :=
  match o with
  | some s => if s = "" then d else s
  | none => d

/-- Python f-string rendering of an optional string (`None` prints as such). -/
def pyStr : Option String → String
  | some s => s
  | none => "None"

/-- A combatant row as produced by `PokemonManager.load_pokemon`:
name, the `types` pair (`type1 or None`, `type2 or None`), the five combat
stats plus hp, and the `type_effectiveness` table built from the
`against_*` columns (keys already capitalized at load time). -/
structure PokemonRow where
  name : String
  type1 : Option String
  type2 : Option String
  hp : Int
  attack : Int
  defense : Int
  sp_attack : Int
  sp_defense : Int
  speed : Int
  type_effectiveness : List (String × ℚ)
deriving DecidableEq, Repr

/-- A move definition dictionary: `calculate_damage` reads `type`, `power`
and `damage_category` through `.get` with defaults, so each field is
optional (the entries of `MOVES` have every field present). -/
structure Move where
  name : String
  type : Option String
  power : Option ℚ
  damage_category : Option String
deriving DecidableEq, Repr

/-- The module-level `MOVES` table of pokemon.py. -/
def MOVES : List (String × Move) :=
  [ ("Tackle", ⟨"Tackle", some "Normal", some 40, some "physical"⟩),
    ("Quick Attack", ⟨"Quick Attack", some "Normal", some 40, some "physical"⟩),
    ("Scratch", ⟨"Scratch", some "Normal", some 40, some "physical"⟩),
    ("Ember", ⟨"Ember", some "Fire", some 40, some "special"⟩),
    ("Water Gun", ⟨"Water Gun", some "Water", some 40, some "special"⟩),
    ("Thunderbolt", ⟨"Thunderbolt", some "Electric", some 90, some "special"⟩),
    ("Vine Whip", ⟨"Vine Whip", some "Grass", some 45, some "physical"⟩) ]

/-- `MOVES.get(name)`. -/
def movesGet (name : Option String) : Option Move :=
  match name with
  | some n => List.lookup n MOVES
  | none => none

/-- The empty dictionary `{}` used as `MOVES.get(move_name, {})` fallback:
every `.get` on it yields its default. -/
def emptyMove : Move := ⟨"", none, none, none⟩

/-- The per-type loop body of `PokemonManager.get_type_multiplier`
(pokemon.py lines 97-103): for each truthy defender type, multiply the
accumulator by the effectiveness-table entry for the (already capitalized)
move type, defaulting to 1.0 when the entry is absent. -/
def typeLoop (te : List (String × ℚ)) (mt : String) :
    List (Option String) → ℚ → ℚ
  | [], acc => acc
  | dt :: rest, acc =>
      if strFalsy dt then typeLoop te mt rest acc
      else typeLoop te mt rest (acc * (List.lookup mt te).getD 1)

/-- `PokemonManager.get_type_multiplier` (pokemon.py lines 92-104):
returns 1.0 for a falsy move type, otherwise capitalizes the move type and
runs the loop over the defender's `types` pair. -/
def get_type_multiplier (move_type : String) (defender : PokemonRow) : ℚ :=
  if move_type = "" then 1
  else typeLoop defender.type_effectiveness (pyCapitalize move_type)
        [defender.type1, defender.type2] 1

/-- `PokemonManager.calculate_damage` (pokemon.py lines 106-119): the
damage category selects the stat pair, raw damage is
`(atk / max(defn, 1.0)) * power * type_mult`, then `max(1, int(round(raw)))`. -/
def calculate_damage (attacker defender : PokemonRow) (move : Move) : Int :=
  let category := move.damage_category.getD "physical"
  let atk : ℚ := if category = "physical" then attacker.attack else attacker.sp_attack
  let defn : ℚ := if category = "physical" then defender.defense else defender.sp_defense
  let power := move.power.getD 50
  let type_mult := get_type_multiplier (move.type.getD "") defender
  let raw := (atk / max defn 1) * power * type_mult
  max 1 (pyRound raw)

/-! ### Reliable transport (network.py) -/

/-- The environment of one `ReliableSender.send_with_ack` call, abstracting
the socket and the acknowledgment event: `sendOk i` tells whether the i-th
`sendto` succeeds (raises no exception), and `ackArrives i` tells whether
the `ev.wait(timeout)` following the i-th send observes the acknowledgment
event for this payload's sequence number. -/
structure SendEnv where
  sendOk : Nat → Bool
  ackArrives : Nat → Bool

/-- Outcome of a `send_with_ack` call: the returned boolean and the number
of successful transmissions of the encoded envelope. -/
structure SendResult where
  success : Bool
  sends : Nat
deriving DecidableEq, Repr

/-- The retry loop of `ReliableSender.send_with_ack` (network.py lines
39-59): `tries` is the loop counter, `remaining` the number of iterations
the guard `tries <= max_retries` still allows, `sends` the transmissions
so far. A send error returns failure at once; an observed acknowledgment
returns success; otherwise the loop retries until exhaustion. -/
def sendLoop (env : SendEnv) : Nat → Nat → Nat → SendResult
  | _, 0, sends => ⟨false, sends⟩
  | tries, remaining + 1, sends =>
      if env.sendOk tries then
        if env.ackArrives tries then ⟨true, sends + 1⟩
        else sendLoop env (tries + 1) remaining (sends + 1)
      else ⟨false, sends⟩

/-- A wire payload as seen by the transport: the `message_type` tag, the
optional `sequence_number`, and the `from` field. -/
structure Payload where
  message_type : Option String
  sequence_number : Option Int
  fromName : Option String
deriving DecidableEq, Repr

/-- `ReliableSender.send_with_ack` (network.py lines 29-59): a payload
without a `sequence_number` raises `ValueError` (embedded as `none`);
otherwise the loop runs with `tries = 0` and guard `tries <= max_retries`,
i.e. at most `max_retries + 1` iterations. -/
def send_with_ack (payload : Payload) (env : SendEnv) (max_retries : Nat) :
    Option SendResult :=
  match payload.sequence_number with
  | none => none
  | some _ => some (sendLoop env 0 (max_retries + 1) 0)

/-- The default `RETRANSMIT_RETRIES` of network.py. -/
def RETRANSMIT_RETRIES : Nat := 3

/-! ### Receive loop (network.py `BasePeer._recv_loop`) -/

/-- A decoded inbound wire message, as read by `_recv_loop` through
`msg.get('message_type')`, `'sequence_number' in msg` and
`'ack_number' in msg`. -/
structure WireMsg where
  message_type : Option String
  sequence_number : Option Int
  ack_number : Option Int
deriving DecidableEq, Repr

/-- The observable actions of one `_recv_loop` iteration, in order. -/
inductive RecvEvent where
  | ackSent (n : Int)
  | notifyAck (n : Int)
  | dispatch
deriving DecidableEq, Repr

/-- One iteration of `BasePeer._recv_loop` on a decoded message
(network.py lines 112-130): first, a non-ACK message carrying a
`sequence_number` is acknowledged back to the source; then an ACK message
carrying an `ack_number` releases the reliable sender's waiter and is
dropped (`continue`); every other message is dispatched to
`handle_message`. -/
def recv_step (msg : WireMsg) : List RecvEvent :=
  (match msg.sequence_number with
   | some n =>
      if msg.message_type = some "ACK" then [] else [RecvEvent.ackSent n]
   | none => []) ++
  (if msg.message_type = some "ACK" then
     match msg.ack_number with
     | some n => [RecvEvent.notifyAck n]
     | none => [RecvEvent.dispatch]
   else [RecvEvent.dispatch])

/-- `ReliableSender.notify_ack` (network.py lines 61-65) acting on the
waiter table (sequence number paired with whether its event is set): the
waiter stored under `ack` (if any) has its event set. -/
def notify_ack (waiters : List (Int × Bool)) (ack : Int) : List (Int × Bool) :=
  waiters.map (fun p => if p.1 = ack then (p.1, true) else p)

/-! ### Sequence numbering (network.py `BasePeer.make_seq` / `send`) -/

/-- The sequence-numbering state of a `BasePeer`: its name and the
`seq_counter` dictionary (association list; `lookup` finds the most
recent binding). -/
structure PeerState where
  name : String
  seq_counter : List (String × Nat)
deriving DecidableEq, Repr

/-- `self.seq_counter.get(name, 0)`. -/
def seqGet (s : PeerState) (k : String) : Nat :=
  (List.lookup k s.seq_counter).getD 0

/-- `BasePeer.make_seq` (network.py lines 140-142): increment this peer's
entry of `seq_counter` (missing entries count as 0) and return it. -/
def make_seq (s : PeerState) : Nat × PeerState :=
  let v := seqGet s s.name + 1
  (v, { s with seq_counter := (s.name, v) :: s.seq_counter })

/-- `BasePeer.send` (network.py lines 144-160): draw a fresh sequence
number, stamp the payload's `sequence_number` and `from` fields, then hand
the stamped payload to the reliable or raw path; `outcome` abstracts the
boolean the chosen path returns (retry exhaustion or socket error make it
false). The counter increment happens before and regardless of it. -/
def peerSend (s : PeerState) (payload : Payload) (outcome : Bool) :
    Payload × PeerState × Bool :=
  let (seq, s') := make_seq s
  let stamped := { payload with sequence_number := some (seq : Int),
                                fromName := some s.name }
  (stamped, s', outcome)

/-! ### Session state machines (peers.py) -/

/-- A network address (opaque in the embedding). -/
abbrev Addr := String

/-- The `stat_boosts` dictionary carried by BATTLE_SETUP envelopes. -/
structure StatBoosts where
  special_attack_uses : Int
  special_defense_uses : Int
deriving DecidableEq, Repr

/-- An application-level envelope as handled by the peers: a dictionary
with `.get`-style access, embedded as a record of optional fields (absent
key = `none`). The `pokemon` payload dictionary of a setup envelope is
embedded as a full `PokemonRow`; on the wire it carries the type, stat and
hit-point entries of that row. -/
structure Msg where
  message_type : Option String := none
  seed : Option Int := none
  role : Option String := none
  communication_mode : Option String := none
  pokemon_name : Option String := none
  pokemon : Option PokemonRow := none
  stat_boosts : Option StatBoosts := none
  current_turn : Option String := none
  move_name : Option String := none
  attacker : Option String := none
  move_used : Option String := none
  damage_dealt : Option Int := none
  defender_hp_remaining : Option Int := none
  status_message : Option String := none
  winner : Option String := none
  reason : Option String := none
deriving DecidableEq, Repr

/-- Python truthiness of `row and row['hp'] <= 0` on an optional row. -/
def rowDeadOpt : Option PokemonRow → Bool
  | some r => r.hp ≤ 0
  | none => false

/-- The state of a `HostPeer` (peers.py lines 40-62): the `battle_state`
dictionary is flattened into the `battle_*` fields (`game_over` starts
absent, i.e. false). -/
structure HostState where
  name : String
  pokemon_db : List (String × PokemonRow)
  seed : Int
  remote_addr : Option Addr
  local_pokemon_name : String
  local_pokemon_row : PokemonRow
  battle_host_hp : Option Int
  battle_joiner_hp : Option Int
  battle_turn : Option String
  battle_stat_boosts : Option StatBoosts
  battle_game_over : Bool
  joiner_pokemon_name : Option String
  joiner_pokemon_row : Option PokemonRow
  last_announced_move : Option String
  spectators : List Addr
deriving DecidableEq, Repr

/-- The Host's own BATTLE_SETUP envelope (`my_setup`, peers.py 115-130). -/
def hostOwnSetup (s : HostState) : Msg :=
  { message_type := some "BATTLE_SETUP",
    communication_mode := some "P2P",
    pokemon_name := some s.local_pokemon_name,
    stat_boosts := some ⟨5, 5⟩,
    pokemon := some s.local_pokemon_row }

/-- `HostPeer.handle_message` (peers.py lines 67-370), as a function from
the current state and the received envelope (with its source address) to
the next state and the list of envelopes sent, in order, each paired with
its destination. Console printing is dropped. -/
def hostHandle (s : HostState) (msg : Msg) (addr : Addr) :
    HostState × List (Addr × Msg) :=
  if msg.message_type = some "HANDSHAKE_REQUEST" then
    ({ s with remote_addr := some addr },
     [(addr, { message_type := some "HANDSHAKE_RESPONSE", seed := some s.seed })])
  else if msg.message_type = some "SPECTATOR_REQUEST" then
    let s1 := { s with spectators := s.spectators ++ [addr] }
    let resp : Msg := { message_type := some "HANDSHAKE_RESPONSE",
                        seed := some s.seed, role := some "spectator" }
    match s.joiner_pokemon_row with
    | some jrow =>
        (s1, [(addr, resp),
              (addr, { message_type := some "BATTLE_SETUP",
                       pokemon_name := s.joiner_pokemon_name,
                       pokemon := some jrow }),
              (addr, { message_type := some "BATTLE_SETUP",
                       pokemon_name := some s.local_pokemon_name,
                       pokemon := some s.local_pokemon_row })])
    | none => (s1, [(addr, resp)])
  else if msg.message_type = some "BATTLE_SETUP" then
    let s1 := { s with remote_addr := some addr }
    let s2 :=
      match msg.pokemon_name, msg.pokemon with
      | some pname, some pdata =>
          if pname = "" then s1
          else
            { s1 with battle_joiner_hp := some pdata.hp,
                      battle_stat_boosts := msg.stat_boosts,
                      joiner_pokemon_name := some pname,
                      joiner_pokemon_row :=
                        some ((List.lookup pname s.pokemon_db).getD pdata) }
      | _, _ => s1
    let mySetup := hostOwnSetup s
    let turnMsg : Msg := { message_type := some "TURN_ASSIGNMENT",
                           current_turn := some "host" }
    (s2, [(addr, mySetup), (addr, turnMsg)] ++
         (s.spectators.map (fun sp => [(sp, mySetup), (sp, turnMsg)])).flatten)
  else if msg.message_type = some "ATTACK_ANNOUNCE" then
    if s.battle_turn ≠ some "joiner" then (s, [])
    else
      let outs0 := [(addr, ({ message_type := some "DEFENSE_ANNOUNCE" } : Msg))]
                     ++ s.spectators.map (fun sp => (sp, msg))
      match movesGet msg.move_name, s.joiner_pokemon_row with
      | some move, some arow =>
          let damage := calculate_damage arow s.local_pokemon_row move
          let newHp := max 0 (s.local_pokemon_row.hp - damage)
          let report : Msg :=
            { message_type := some "CALCULATION_REPORT",
              attacker := s.joiner_pokemon_name,
              move_used := msg.move_name,
              damage_dealt := some damage,
              defender_hp_remaining := some newHp,
              status_message := some (s.local_pokemon_name ++ " was hit by "
                ++ pyStr msg.move_name ++ " for " ++ toString damage ++ " dmg") }
          ({ s with local_pokemon_row := { s.local_pokemon_row with hp := newHp },
                    battle_host_hp := some newHp },
           outs0 ++ [(addr, report)] ++ s.spectators.map (fun sp => (sp, report)))
      | _, _ => (s, outs0)
  else if msg.message_type = some "DEFENSE_ANNOUNCE" then
    if strFalsy s.last_announced_move then (s, [])
    else
      match movesGet s.last_announced_move, s.joiner_pokemon_row with
      | some move, some jrow =>
          let damage := calculate_damage s.local_pokemon_row jrow move
          let newHp := max 0 (jrow.hp - damage)
          let report : Msg :=
            { message_type := some "CALCULATION_REPORT",
              attacker := some s.local_pokemon_name,
              move_used := s.last_announced_move,
              damage_dealt := some damage,
              defender_hp_remaining := some newHp,
              status_message := some (s.local_pokemon_name ++ " used "
                ++ pyStr s.last_announced_move ++ "!") }
          ({ s with joiner_pokemon_row := some { jrow with hp := newHp },
                    battle_joiner_hp := some newHp },
           [(addr, report)] ++ s.spectators.map (fun sp => (sp, report)))
      | _, _ => (s, [])
  else if msg.message_type = some "CALCULATION_REPORT" then
    let damage_dealt := msg.damage_dealt.getD 0
    let defender_hp := msg.defender_hp_remaining.getD 0
    let mv := (movesGet msg.move_used).getD emptyMove
    let expected : Option Int :=
      if msg.attacker = some s.local_pokemon_name then
        match s.joiner_pokemon_row with
        | some jrow => some (calculate_damage s.local_pokemon_row jrow mv)
        | none => none
      else
        match s.joiner_pokemon_row with
        | some jrow => some (calculate_damage jrow s.local_pokemon_row mv)
        | none => none
    match expected with
    | none => (s, [])
    | some exp =>
        if exp = damage_dealt then
          let s1 :=
            if msg.attacker = some s.local_pokemon_name then
              { s with joiner_pokemon_row :=
                        s.joiner_pokemon_row.map (fun r => { r with hp := defender_hp }),
                       battle_joiner_hp := some defender_hp }
            else
              { s with local_pokemon_row := { s.local_pokemon_row with hp := defender_hp },
                       battle_host_hp := some defender_hp }
          let confirm : Msg := { message_type := some "CALCULATION_CONFIRM" }
          if s1.local_pokemon_row.hp ≤ 0 then
            let gmsg : Msg :=
              { message_type := some "GAME_OVER",
                winner := some (pyOrStr s.joiner_pokemon_name "Joiner"),
                reason := some (s.local_pokemon_name ++ " fainted!") }
            ({ s1 with battle_game_over := true },
             [(addr, confirm), (addr, gmsg)] ++ s.spectators.map (fun sp => (sp, gmsg)))
          else if rowDeadOpt s1.joiner_pokemon_row then
            let gmsg : Msg :=
              { message_type := some "GAME_OVER",
                winner := some s.local_pokemon_name,
                reason := some (pyStr s.joiner_pokemon_name ++ " fainted!") }
            ({ s1 with battle_game_over := true },
             [(addr, confirm), (addr, gmsg)] ++ s.spectators.map (fun sp => (sp, gmsg)))
          else if msg.attacker ≠ some s.local_pokemon_name then
            let turnMsg : Msg := { message_type := some "TURN_ASSIGNMENT",
                                   current_turn := some "host" }
            ({ s1 with battle_turn := some "host" },
             [(addr, confirm), (addr, turnMsg)] ++ s.spectators.map (fun sp => (sp, turnMsg)))
          else (s1, [(addr, confirm)])
        else
          (s, [(addr, { message_type := some "RESOLUTION_REQUEST",
                        attacker := msg.attacker, move_used := msg.move_used,
                        damage_dealt := some exp })])
  else if msg.message_type = some "CALCULATION_CONFIRM" then
    if s.battle_turn = some "host" then
      let turnMsg : Msg := { message_type := some "TURN_ASSIGNMENT",
                             current_turn := some "joiner" }
      ({ s with battle_turn := some "joiner" },
       [(addr, turnMsg)] ++ s.spectators.map (fun sp => (sp, turnMsg)))
    else (s, [])
  else if msg.message_type = some "RESOLUTION_REQUEST" then
    let turnMsg : Msg := { message_type := some "TURN_ASSIGNMENT",
                           current_turn := some "joiner" }
    ({ s with battle_turn := some "joiner" },
     [(addr, { message_type := some "CALCULATION_CONFIRM" }), (addr, turnMsg)])
  else if msg.message_type = some "TURN_ASSIGNMENT" then
    ({ s with battle_turn := msg.current_turn }, [])
  else if msg.message_type = some "GAME_OVER" then
    if s.battle_game_over then (s, [])
    else ({ s with battle_game_over := true }, [])
  else if msg.message_type = some "CHAT_MESSAGE" then (s, [])
  else (s, [])

/-- The state of a `JoinerPeer` (peers.py lines 394-410). -/
structure JoinerState where
  name : String
  pokemon_db : List (String × PokemonRow)
  remote_addr : Option Addr
  host_addr : Addr
  local_pokemon_name : String
  local_pokemon_row : PokemonRow
  battle_joiner_hp : Option Int
  battle_host_hp : Option Int
  battle_turn : Option String
  battle_game_over : Bool
  host_pokemon_name : Option String
  host_pokemon_row : Option PokemonRow
  last_announced_move : Option String
deriving DecidableEq, Repr

/-- The Joiner's own BATTLE_SETUP envelope (peers.py 429-444). -/
def joinerOwnSetup (s : JoinerState) : Msg :=
  { message_type := some "BATTLE_SETUP",
    communication_mode := some "P2P",
    pokemon_name := some s.local_pokemon_name,
    stat_boosts := some ⟨5, 5⟩,
    pokemon := some s.local_pokemon_row }

/-- `JoinerPeer.handle_message` (peers.py lines 419-626), embedded like
`hostHandle`. -/
def joinerHandle (s : JoinerState) (msg : Msg) (addr : Addr) :
    JoinerState × List (Addr × Msg) :=
  if msg.message_type = some "HANDSHAKE_RESPONSE" then
    ({ s with remote_addr := some addr }, [(s.host_addr, joinerOwnSetup s)])
  else if msg.message_type = some "BATTLE_SETUP" then
    let hp := (msg.pokemon.map (fun p => p.hp)).getD 0
    let row? : Option PokemonRow :=
      match msg.pokemon_name with
      | some pname =>
          match List.lookup pname s.pokemon_db with
          | some r => some r
          | none => msg.pokemon
      | none => msg.pokemon
    ({ s with battle_host_hp := some hp,
              host_pokemon_name := msg.pokemon_name,
              host_pokemon_row := row? }, [])
  else if msg.message_type = some "TURN_ASSIGNMENT" then
    ({ s with battle_turn := msg.current_turn }, [])
  else if msg.message_type = some "ATTACK_ANNOUNCE" then
    if s.battle_turn ≠ some "host" then (s, [])
    else
      let outs0 := [(addr, ({ message_type := some "DEFENSE_ANNOUNCE" } : Msg))]
      match movesGet msg.move_name, s.host_pokemon_row with
      | some move, some arow =>
          let damage := calculate_damage arow s.local_pokemon_row move
          let newHp := max 0 (s.local_pokemon_row.hp - damage)
          let report : Msg :=
            { message_type := some "CALCULATION_REPORT",
              attacker := s.host_pokemon_name,
              move_used := msg.move_name,
              damage_dealt := some damage,
              defender_hp_remaining := some newHp,
              status_message := some (s.local_pokemon_name ++ " was hit by "
                ++ pyStr msg.move_name ++ " for " ++ toString damage ++ " dmg") }
          ({ s with local_pokemon_row := { s.local_pokemon_row with hp := newHp },
                    battle_joiner_hp := some newHp },
           outs0 ++ [(addr, report)])
      | _, _ => (s, outs0)
  else if msg.message_type = some "DEFENSE_ANNOUNCE" then
    if strFalsy s.last_announced_move then (s, [])
    else
      match movesGet s.last_announced_move, s.host_pokemon_row with
      | some move, some hrow =>
          let damage := calculate_damage s.local_pokemon_row hrow move
          let newHp := max 0 (hrow.hp - damage)
          let report : Msg :=
            { message_type := some "CALCULATION_REPORT",
              attacker := some s.local_pokemon_name,
              move_used := s.last_announced_move,
              damage_dealt := some damage,
              defender_hp_remaining := some newHp,
              status_message := some (s.local_pokemon_name ++ " used "
                ++ pyStr s.last_announced_move ++ "!") }
          ({ s with host_pokemon_row := some { hrow with hp := newHp },
                    battle_host_hp := some newHp },
           [(addr, report)])
      | _, _ => (s, [])
  else if msg.message_type = some "CALCULATION_REPORT" then
    let damage_dealt := msg.damage_dealt.getD 0
    let defender_hp := msg.defender_hp_remaining.getD 0
    let mv := (movesGet msg.move_used).getD emptyMove
    let expected : Option Int :=
      if msg.attacker = some s.local_pokemon_name then
        match s.host_pokemon_row with
        | some hrow => some (calculate_damage s.local_pokemon_row hrow mv)
        | none => none
      else
        match s.host_pokemon_row with
        | some hrow => some (calculate_damage hrow s.local_pokemon_row mv)
        | none => none
    match expected with
    | none => (s, [])
    | some exp =>
        if exp = damage_dealt then
          let s1 :=
            if msg.attacker = some s.local_pokemon_name then
              { s with host_pokemon_row :=
                        s.host_pokemon_row.map (fun r => { r with hp := defender_hp }),
                       battle_host_hp := some defender_hp }
            else
              { s with local_pokemon_row := { s.local_pokemon_row with hp := defender_hp },
                       battle_joiner_hp := some defender_hp }
          if s1.local_pokemon_row.hp ≤ 0 ∨ rowDeadOpt s1.host_pokemon_row = true then
            ({ s1 with battle_game_over := true }, [])
          else
            (s1, [(addr, { message_type := some "CALCULATION_CONFIRM" })])
        else
          (s, [(addr, { message_type := some "RESOLUTION_REQUEST",
                        attacker := msg.attacker, move_used := msg.move_used,
                        damage_dealt := some exp })])
  else if msg.message_type = some "CALCULATION_CONFIRM" then (s, [])
  else if msg.message_type = some "RESOLUTION_REQUEST" then
    (s, [(s.host_addr, { message_type := some "CALCULATION_CONFIRM" })])
  else if msg.message_type = some "CHAT_MESSAGE" then (s, [])
  else if msg.message_type = some "GAME_OVER" then
    if s.battle_game_over then (s, [])
    else ({ s with battle_game_over := true }, [])
  else (s, [])

/-- The state of a `SpectatorPeer` (peers.py lines 648-657). -/
structure SpectatorState where
  host_pokemon_name : Option String
  joiner_pokemon_name : Option String
  host_hp : Option Int
  joiner_hp : Option Int
deriving DecidableEq, Repr

/-- `SpectatorPeer.handle_message` (peers.py lines 663-712): only the
BATTLE_SETUP and CALCULATION_REPORT branches mutate state (the rest only
prints), and the spectator never sends anything from its handler. -/
def spectatorHandle (s : SpectatorState) (msg : Msg) : SpectatorState :=
  if msg.message_type = some "BATTLE_SETUP" then
    if strFalsy s.host_pokemon_name then
      { s with host_pokemon_name := msg.pokemon_name,
               host_hp := msg.pokemon.map (fun p => p.hp) }
    else
      { s with joiner_pokemon_name := msg.pokemon_name,
               joiner_hp := msg.pokemon.map (fun p => p.hp) }
  else if msg.message_type = some "CALCULATION_REPORT" then
    if msg.attacker = s.host_pokemon_name then
      { s with joiner_hp := msg.defender_hp_remaining }
    else
      { s with host_hp := msg.defender_hp_remaining }
  else s

/-- The defender's "one or two elemental types" in the sense of the spec's
data model: the present (non-absent, non-empty) entries of the type pair. -/
def presentTypes (d : PokemonRow) : List String :=
  (([d.type1, d.type2]).filterMap id).filter (fun t => decide (t ≠ ""))

/-- Modelled from the spec: "Type multiplier is the product, over each of
the defender's one or two elemental types, of the defender's
effectiveness-table lookup for the move's elemental type (default 1.0 if
absent)" — the lookup key is the move's elemental type exactly as given. -/
def spec_type_multiplier (move_type : String) (defender : PokemonRow) : ℚ :=
  ((presentTypes defender).map
    (fun _ => (List.lookup move_type defender.type_effectiveness).getD 1)).prod

/-- Modelled from the spec: "Category selects the attack/defense stat pair
(physical→attack/defense, special→special-attack/special-defense). Raw
damage = (attacker_stat / max(defender_stat, 1)) * move.power *
type_multiplier, rounded to nearest integer, floored at 1." -/
def spec_damage (attacker defender : PokemonRow) (move : Move) : Int :=
  let category := move.damage_category.getD "physical"
  let atk : ℚ := if category = "physical" then attacker.attack else attacker.sp_attack
  let defn : ℚ := if category = "physical" then defender.defense else defender.sp_defense
  let power := move.power.getD 50
  let type_mult := spec_type_multiplier (move.type.getD "") defender
  let raw := (atk / max defn 1) * power * type_mult
  max 1 (pyRound raw)

/-! ### Concrete data used by counterexamples and witnesses -/

/-- Bulbasaur as in scenario A of the spec (45 HP, attack 49, defense 49),
with a neutral effectiveness entry for Normal moves. -/
def bulbasaurRow : PokemonRow :=
  ⟨"Bulbasaur", some "Grass", some "Poison", 45, 49, 49, 65, 65, 45, [("Normal", 1)]⟩

/-- Charmander as in scenario A of the spec: 39 HP, and (per the claim's
concrete stats) attack 49 and defense 49, neutral against Normal moves. -/
def charmanderRow : PokemonRow :=
  ⟨"Charmander", some "Fire", none, 39, 49, 49, 60, 50, 65, [("Normal", 1)]⟩

/-- Pikachu-like sample combatant. -/
def pikachuRow : PokemonRow :=
  ⟨"Pikachu", some "Electric", none, 35, 55, 40, 50, 50, 90, [("Normal", 1)]⟩

/-- The Tackle entry of `MOVES`. -/
def tackleMove : Move := ⟨"Tackle", some "Normal", some 40, some "physical"⟩

/-- A defender whose effectiveness table is keyed by the lower-case string
"fire" (a well-formed table in the claim's sense: it maps elemental-type
strings to multipliers). -/
def lowerFireRow : PokemonRow :=
  ⟨"Target", some "Grass", none, 50, 10, 10, 10, 10, 10, [("fire", 2)]⟩

/-- An attacker with attack 10. -/
def attackerRow10 : PokemonRow :=
  ⟨"Attacker", some "Normal", none, 50, 10, 10, 10, 10, 10, []⟩

/-- A 40-power physical move whose elemental type is the lower-case
string "fire". -/
def lowerFireMove : Move := ⟨"LowerFire", some "fire", some 40, some "physical"⟩

/-! ### C9 -/

/-- C9: for every attacker row, defender row and move, `calculate_damage`
returns an integer greater than or equal to 1. -/
theorem calculate_damage_ge_one (attacker defender : PokemonRow) (move : Move) :
    1 ≤ calculate_damage attacker defender move := by
  unfold calculate_damage
  exact le_max_left 1 _

/-! ### C1 -/

/-- The per-type loop accumulates the product of the (fixed) per-type
factor over the truthy entries of the type list. -/
lemma typeLoop_eq_prod (te : List (String × ℚ)) (mt : String)
    (l : List (Option String)) (acc : ℚ) :
    typeLoop te mt l acc =
      acc * (((l.filterMap id).filter (fun t => decide (t ≠ ""))).map
        (fun _ => (List.lookup mt te).getD 1)).prod := by
  induction l generalizing acc with
  | nil => simp [typeLoop]
  | cons dt rest ih =>
      cases dt with
      | none => simp [typeLoop, strFalsy, ih]
      | some t =>
          by_cases ht : t = ""
          · subst ht
            simp [typeLoop, strFalsy, ih]
          · simp only [typeLoop, strFalsy, ih, List.filterMap_cons_some,
              List.filter_cons, List.map_cons, List.prod_cons]
            simp [ht]
            ring

/-- For a non-empty move type unchanged by capitalization, the source
multiplier agrees with the spec's product-over-present-types reading. -/
lemma get_type_multiplier_eq_spec (ty : String) (d : PokemonRow)
    (hne : ty ≠ "") (hcap : pyCapitalize ty = ty) :
    get_type_multiplier ty d = spec_type_multiplier ty d := by
  unfold get_type_multiplier spec_type_multiplier presentTypes
  rw [if_neg hne, hcap, typeLoop_eq_prod]
  simp

/-- C1 counterexample: the claim's reference definition looks the move's
elemental type up as given, but `calculate_damage` capitalizes it first:
for a move typed "fire" against a defender whose table is keyed "fire",
the code finds no entry (multiplier 1) while the reference finds 2, so the
two sides disagree (40 versus 80). -/
theorem calculate_damage_capitalize_counterexample :
    calculate_damage attackerRow10 lowerFireRow lowerFireMove = 40 ∧
    spec_damage attackerRow10 lowerFireRow lowerFireMove = 80 := by
  decide

/-- C1 (amended): for every attacker row, defender row, and move whose
damage category, power and elemental type are present, provided the move's
elemental type is non-empty and unchanged by Python's `str.capitalize` (as
every type in the repository's move table is), `calculate_damage` equals
the reference definition: the category selects the stat pair, raw damage
is (attacker_stat / max(defender_stat, 1)) * power * type_multiplier
rounded to nearest and floored at 1, and the type multiplier is the
product, over each of the defender's one or two elemental types, of the
defender's effectiveness-table lookup for the move's elemental type with
default 1.0 when absent (a dual-typed defender contributing the same
entry twice). -/
theorem calculate_damage_eq_spec_damage (attacker defender : PokemonRow)
    (nm ty : String) (pw : ℚ) (cat : String)
    (hne : ty ≠ "") (hcap : pyCapitalize ty = ty) :
    calculate_damage attacker defender ⟨nm, some ty, some pw, some cat⟩ =
      spec_damage attacker defender ⟨nm, some ty, some pw, some cat⟩ := by
  unfold calculate_damage spec_damage
  rw [show (Option.getD (some ty) "") = ty from rfl,
      get_type_multiplier_eq_spec ty defender hne hcap]

/-- C1 witness: the amended equality applied to the scenario-A combatants
and the Tackle move (type "Normal", non-empty and capitalization-stable). -/
theorem calculate_damage_eq_spec_damage_witness :
    ("Normal" ≠ "" ∧ pyCapitalize "Normal" = "Normal") ∧
      calculate_damage bulbasaurRow charmanderRow tackleMove =
        spec_damage bulbasaurRow charmanderRow tackleMove :=
  ⟨⟨by decide, by decide⟩,
   calculate_damage_eq_spec_damage bulbasaurRow charmanderRow
     "Tackle" "Normal" 40 "physical" (by decide) (by decide)⟩

/-! ### C4 -/

/-- When every send succeeds and no acknowledgment ever arrives, the retry
loop runs all its remaining iterations, transmitting once per iteration,
and fails. -/
lemma sendLoop_no_ack (env : SendEnv)
    (hok : ∀ i, env.sendOk i = true) (hna : ∀ i, env.ackArrives i = false) :
    ∀ (remaining tries sends : Nat),
      sendLoop env tries remaining sends = ⟨false, sends + remaining⟩ := by
  intro remaining
  induction remaining with
  | zero => intro t s; simp [sendLoop]
  | succ r ih =>
      intro t s
      rw [sendLoop, hok t, hna t]
      simp only [if_true, Bool.false_eq_true, if_false, ih]
      congr 1
      omega

/-- C4: for every payload carrying a sequence number and retry count R,
if no acknowledgment ever arrives and every socket send succeeds,
`send_with_ack` performs exactly R+1 transmissions and returns failure;
if the acknowledgment arrives during the first wait, it returns success
after exactly one transmission. -/
theorem send_with_ack_retry_contract (payload : Payload) (env : SendEnv)
    (R : Nat) (n : Int) (hseq : payload.sequence_number = some n) :
    ((∀ i, env.sendOk i = true) → (∀ i, env.ackArrives i = false) →
       send_with_ack payload env R = some ⟨false, R + 1⟩) ∧
    (env.sendOk 0 = true → env.ackArrives 0 = true →
       send_with_ack payload env R = some ⟨true, 1⟩) := by
  constructor
  · intro hok hna
    unfold send_with_ack
    rw [hseq, sendLoop_no_ack env hok hna]
    simp
  · intro h0 ha
    unfold send_with_ack
    rw [hseq, sendLoop, h0, ha]
    simp

/-- C4 witness: with the default retry count 3, a dead environment yields
failure after exactly 4 transmissions, and an immediately-acknowledging
environment yields success after exactly 1. -/
theorem send_with_ack_retry_contract_witness :
    send_with_ack ⟨some "ATTACK_ANNOUNCE", some 9, none⟩
        ⟨fun _ => true, fun _ => false⟩ RETRANSMIT_RETRIES = some ⟨false, 4⟩ ∧
    send_with_ack ⟨some "ATTACK_ANNOUNCE", some 9, none⟩
        ⟨fun _ => true, fun _ => true⟩ RETRANSMIT_RETRIES = some ⟨true, 1⟩ :=
  ⟨(send_with_ack_retry_contract ⟨some "ATTACK_ANNOUNCE", some 9, none⟩
      ⟨fun _ => true, fun _ => false⟩ RETRANSMIT_RETRIES 9 rfl).1
      (fun _ => rfl) (fun _ => rfl),
   (send_with_ack_retry_contract ⟨some "ATTACK_ANNOUNCE", some 9, none⟩
      ⟨fun _ => true, fun _ => true⟩ RETRANSMIT_RETRIES 9 rfl).2 rfl rfl⟩

/-! ### C6 -/

/-- C6: every `BasePeer.send` increments the sender's sequence counter by
exactly one and stamps the payload with the incremented value, whatever
the outcome of the transmission, so two successive sends from the same
peer are numbered n+1 and n+2 (strictly increasing by 1). -/
theorem send_increments_seq (s : PeerState) (p q : Payload) (b1 b2 : Bool) :
    seqGet (peerSend s p b1).2.1 (peerSend s p b1).2.1.name
        = seqGet s s.name + 1 ∧
    (peerSend s p b1).1.sequence_number
        = some ((seqGet s s.name + 1 : Nat) : Int) ∧
    seqGet (peerSend (peerSend s p b1).2.1 q b2).2.1
        (peerSend (peerSend s p b1).2.1 q b2).2.1.name
      = seqGet s s.name + 2 ∧
    (peerSend (peerSend s p b1).2.1 q b2).1.sequence_number
        = some ((seqGet s s.name + 2 : Nat) : Int) := by
  refine ⟨?_, rfl, ?_, ?_⟩
  · simp [peerSend, make_seq, seqGet, List.lookup]
  · simp [peerSend, make_seq, seqGet, List.lookup]
  · simp [peerSend, make_seq, seqGet, List.lookup]
    ring

/-! ### C3 -/

/-- C3 counterexample: an inbound envelope whose message_type is "ACK" but
which carries no ack_number is dispatched to the session handler (and
releases no waiter), contradicting "never passed to the session handler". -/
theorem ack_without_number_dispatched :
    recv_step ⟨some "ACK", none, none⟩ = [RecvEvent.dispatch] := by decide

/-- C3 (amended): a decoded non-ACK envelope carrying a sequence number is
acknowledged with exactly that number before being dispatched; a decoded
ACK envelope carrying an ack_number releases the matching pending waiter
(if any) and is never dispatched; an ACK envelope without an ack_number,
however, is dispatched to the session handler. -/
theorem recv_loop_ack_discipline :
    (∀ (msg : WireMsg) (n : Int), msg.message_type ≠ some "ACK" →
       msg.sequence_number = some n →
       recv_step msg = [RecvEvent.ackSent n, RecvEvent.dispatch]) ∧
    (∀ (msg : WireMsg) (n : Int), msg.message_type = some "ACK" →
       msg.ack_number = some n →
       recv_step msg = [RecvEvent.notifyAck n]) ∧
    (∀ (waiters : List (Int × Bool)) (n : Int),
       List.lookup n (notify_ack waiters n)
         = (List.lookup n waiters).map (fun _ => true)) ∧
    (∀ (msg : WireMsg), msg.message_type = some "ACK" →
       msg.ack_number = none →
       recv_step msg = [RecvEvent.dispatch]) := by
  refine ⟨?_, ?_, ?_, ?_⟩
  · intro msg n hmt hseq
    obtain ⟨mt, sq, an⟩ := msg
    dsimp only at hmt hseq
    subst hseq
    simp only [recv_step]
    rw [if_neg hmt, if_neg hmt]
    rfl
  · intro msg n hmt hack
    obtain ⟨mt, sq, an⟩ := msg
    dsimp only at hmt hack
    subst hmt hack
    simp only [recv_step]
    cases sq <;> simp
  · intro waiters n
    induction waiters with
    | nil => rfl
    | cons p rest ih =>
        obtain ⟨k, v⟩ := p
        simp only [notify_ack, List.map_cons] at ih ⊢
        by_cases hk : k = n
        · subst hk
          rw [if_pos rfl]
          simp [List.lookup]
        · rw [if_neg hk]
          have hbeq : (n == k) = false :=
            beq_eq_false_iff_ne.mpr (fun h => hk h.symm)
          simp only [List.lookup, hbeq]
          exact ih
  · intro msg hmt hack
    obtain ⟨mt, sq, an⟩ := msg
    dsimp only at hmt hack
    subst hmt hack
    simp only [recv_step]
    cases sq <;> simp

/-- C3 witness: the amended discipline applied to a sequenced BATTLE_SETUP
envelope, a well-formed ACK, a one-entry waiter table, and an ACK without
an ack_number. -/
theorem recv_loop_ack_discipline_witness :
    recv_step ⟨some "BATTLE_SETUP", some 5, none⟩
        = [RecvEvent.ackSent 5, RecvEvent.dispatch] ∧
    recv_step ⟨some "ACK", none, some 5⟩ = [RecvEvent.notifyAck 5] ∧
    List.lookup 5 (notify_ack [((5 : Int), false)] 5)
        = (List.lookup 5 [((5 : Int), false)]).map (fun _ => true) ∧
    recv_step ⟨some "ACK", some 7, none⟩ = [RecvEvent.dispatch] :=
  ⟨recv_loop_ack_discipline.1 ⟨some "BATTLE_SETUP", some 5, none⟩ 5
      (by decide) rfl,
   recv_loop_ack_discipline.2.1 ⟨some "ACK", none, some 5⟩ 5 rfl rfl,
   recv_loop_ack_discipline.2.2.1 [((5 : Int), false)] 5,
   recv_loop_ack_discipline.2.2.2 ⟨some "ACK", some 7, none⟩ rfl rfl⟩

/-! ### Concrete session states and envelopes -/

/-- A Host session after the scenario-A setup exchange: Bulbasaur locally,
Charmander recorded as the Joiner's combatant, host's turn. -/
def scenarioHost : HostState :=
  { name := "host",
    pokemon_db := [("Bulbasaur", bulbasaurRow), ("Charmander", charmanderRow)],
    seed := 42, remote_addr := some "joineraddr",
    local_pokemon_name := "Bulbasaur", local_pokemon_row := bulbasaurRow,
    battle_host_hp := some 45, battle_joiner_hp := some 39,
    battle_turn := some "host", battle_stat_boosts := none,
    battle_game_over := false,
    joiner_pokemon_name := some "Charmander",
    joiner_pokemon_row := some charmanderRow,
    last_announced_move := some "Tackle", spectators := [] }

/-- The matching Joiner session: Charmander locally, Bulbasaur recorded as
the Host's combatant, waiting on the host's turn. -/
def scenarioJoiner : JoinerState :=
  { name := "joiner",
    pokemon_db := [("Bulbasaur", bulbasaurRow), ("Charmander", charmanderRow)],
    remote_addr := some "hostaddr", host_addr := "hostaddr",
    local_pokemon_name := "Charmander", local_pokemon_row := charmanderRow,
    battle_joiner_hp := some 39, battle_host_hp := some 45,
    battle_turn := some "host", battle_game_over := false,
    host_pokemon_name := some "Bulbasaur",
    host_pokemon_row := some bulbasaurRow,
    last_announced_move := none }

/-- The scenario Host with its game_over flag set. -/
def hostGameOverState : HostState := { scenarioHost with battle_game_over := true }

/-- The scenario Joiner with no assigned turn. -/
def joinerNoTurnState : JoinerState := { scenarioJoiner with battle_turn := none }

/-- An ATTACK_ANNOUNCE naming Tackle. -/
def attackTackleMsg : Msg :=
  { message_type := some "ATTACK_ANNOUNCE", move_name := some "Tackle" }

/-- A TURN_ASSIGNMENT giving the turn to the joiner. -/
def turnToJoinerMsg : Msg :=
  { message_type := some "TURN_ASSIGNMENT", current_turn := some "joiner" }

/-! ### C2 -/

/-- C2 counterexample: a Host session whose game_over flag is set still
overwrites battle_state turn when it handles a TURN_ASSIGNMENT envelope
(the handler has no game-over guard). -/
theorem game_over_turn_assignment_mutates :
    hostGameOverState.battle_game_over = true ∧
    hostGameOverState.battle_turn = some "host" ∧
    (hostHandle hostGameOverState turnToJoinerMsg "joineraddr").1.battle_turn
      = some "joiner" := by
  decide

/-- C2 (amended): once a session's game_over flag is set, handling an
ATTACK_ANNOUNCE envelope leaves battle_state turn unchanged (for the Host
and the Joiner alike), but handling a TURN_ASSIGNMENT envelope overwrites
battle_state turn with the envelope's current_turn field regardless of
the flag. -/
theorem game_over_turn_behavior :
    (∀ (s : HostState) (msg : Msg) (a : Addr), s.battle_game_over = true →
       msg.message_type = some "ATTACK_ANNOUNCE" →
       (hostHandle s msg a).1.battle_turn = s.battle_turn) ∧
    (∀ (s : JoinerState) (msg : Msg) (a : Addr), s.battle_game_over = true →
       msg.message_type = some "ATTACK_ANNOUNCE" →
       (joinerHandle s msg a).1.battle_turn = s.battle_turn) ∧
    (∀ (s : HostState) (msg : Msg) (a : Addr), s.battle_game_over = true →
       msg.message_type = some "TURN_ASSIGNMENT" →
       (hostHandle s msg a).1.battle_turn = msg.current_turn) ∧
    (∀ (s : JoinerState) (msg : Msg) (a : Addr), s.battle_game_over = true →
       msg.message_type = some "TURN_ASSIGNMENT" →
       (joinerHandle s msg a).1.battle_turn = msg.current_turn) := by
  refine ⟨?_, ?_, ?_, ?_⟩
  · intro s msg a _ hmt
    unfold hostHandle
    rw [hmt]
    simp only [Option.some.injEq, String.reduceEq, reduceIte]
    split
    · rfl
    · split <;> rfl
  · intro s msg a _ hmt
    unfold joinerHandle
    rw [hmt]
    simp only [Option.some.injEq, String.reduceEq, reduceIte]
    split
    · rfl
    · split <;> rfl
  · intro s msg a _ hmt
    unfold hostHandle
    rw [hmt]
    simp only [Option.some.injEq, String.reduceEq, reduceIte]
  · intro s msg a _ hmt
    unfold joinerHandle
    rw [hmt]
    simp only [Option.some.injEq, String.reduceEq, reduceIte]

/-- C2 witness: the amended behaviour applied to the game-over Host state,
for an ATTACK_ANNOUNCE (turn kept) and a TURN_ASSIGNMENT (turn taken from
the envelope). -/
theorem game_over_turn_behavior_witness :
    (hostHandle hostGameOverState attackTackleMsg "joineraddr").1.battle_turn
        = hostGameOverState.battle_turn ∧
    (hostHandle hostGameOverState turnToJoinerMsg "joineraddr").1.battle_turn
        = turnToJoinerMsg.current_turn :=
  ⟨game_over_turn_behavior.1 hostGameOverState attackTackleMsg "joineraddr" rfl rfl,
   game_over_turn_behavior.2.2.1 hostGameOverState turnToJoinerMsg "joineraddr" rfl rfl⟩

/-! ### C5 -/

/-- C5: a session handling an ATTACK_ANNOUNCE while its recorded turn is
not the sender's role (not "joiner" for the Host receiver, not "host" for
the Joiner receiver) rejects the attack locally: the handler sends no
envelope at all (in particular no DEFENSE_ANNOUNCE and no
CALCULATION_REPORT) and returns its state unchanged (so battle_state and
both combatants' hit points are untouched). -/
theorem out_of_turn_attack_rejected :
    (∀ (s : HostState) (msg : Msg) (a : Addr),
       msg.message_type = some "ATTACK_ANNOUNCE" →
       s.battle_turn ≠ some "joiner" →
       hostHandle s msg a = (s, [])) ∧
    (∀ (s : JoinerState) (msg : Msg) (a : Addr),
       msg.message_type = some "ATTACK_ANNOUNCE" →
       s.battle_turn ≠ some "host" →
       joinerHandle s msg a = (s, [])) := by
  constructor
  · intro s msg a hmt hturn
    unfold hostHandle
    rw [hmt]
    simp only [Option.some.injEq, String.reduceEq, reduceIte]
    rw [if_pos hturn]
  · intro s msg a hmt hturn
    unfold joinerHandle
    rw [hmt]
    simp only [Option.some.injEq, String.reduceEq, reduceIte]
    rw [if_pos hturn]

/-- C5 witness: a Host whose recorded turn is "host" rejects a joiner
attack without replying; a Joiner with no assigned turn does the same. -/
theorem out_of_turn_attack_rejected_witness :
    hostHandle hostGameOverState attackTackleMsg "joineraddr"
        = (hostGameOverState, []) ∧
    joinerHandle joinerNoTurnState attackTackleMsg "hostaddr"
        = (joinerNoTurnState, []) :=
  ⟨out_of_turn_attack_rejected.1 hostGameOverState attackTackleMsg "joineraddr"
      rfl (by decide),
   out_of_turn_attack_rejected.2 joinerNoTurnState attackTackleMsg "hostaddr"
      rfl (by decide)⟩

/-! ### C7 -/

/-- The DEFENSE_ANNOUNCE reply envelope. -/
def defenseMsg : Msg := { message_type := some "DEFENSE_ANNOUNCE" }

/-- The CALCULATION_CONFIRM envelope. -/
def confirmMsg : Msg := { message_type := some "CALCULATION_CONFIRM" }

/-- The calculation report the Joiner produces in scenario A. -/
def scenarioReport : Msg :=
  { message_type := some "CALCULATION_REPORT", attacker := some "Bulbasaur",
    move_used := some "Tackle", damage_dealt := some 40,
    defender_hp_remaining := some 0,
    status_message := some "Charmander was hit by Tackle for 40 dmg" }

/-- The GAME_OVER envelope naming the Host's combatant as winner. -/
def gameOverBulbasaurMsg : Msg :=
  { message_type := some "GAME_OVER", winner := some "Bulbasaur",
    reason := some "Charmander fainted!" }

/-- C7: in the concrete scenario-A exchange (attacker attack 49, defender
defense 49 and 39 hit points, Tackle: 40-power physical, neutral type
multiplier) the computed damage is round((49/49)*40*1.0) = 40; the Joiner,
defending, floors its hit points to max(0, 39-40) = 0 and reports so; and
the Host, validating the matching calculation report, records the zero
hit points, sets game_over and emits a GAME_OVER envelope naming its own
combatant Bulbasaur as winner. -/
theorem scenario_A_host_wins :
    calculate_damage bulbasaurRow charmanderRow tackleMove = 40 ∧
    joinerHandle scenarioJoiner attackTackleMsg "hostaddr" =
      ({ scenarioJoiner with
           local_pokemon_row := { charmanderRow with hp := 0 },
           battle_joiner_hp := some 0 },
       [("hostaddr", defenseMsg), ("hostaddr", scenarioReport)]) ∧
    hostHandle scenarioHost scenarioReport "joineraddr" =
      ({ scenarioHost with
           joiner_pokemon_row := some { charmanderRow with hp := 0 },
           battle_joiner_hp := some 0,
           battle_game_over := true },
       [("joineraddr", confirmMsg), ("joineraddr", gameOverBulbasaurMsg)]) := by
  decide

/-! ### C8 -/

/-- C8: handling a SPECTATOR_REQUEST registers the sender's address in the
spectator list and replies to that address with a HANDSHAKE_RESPONSE
followed — exactly when the Joiner's setup is already known — by exactly
two BATTLE_SETUP envelopes, the Joiner's combatant first and then the
Host's own; when the Joiner's setup is unknown no BATTLE_SETUP is sent.
Nothing else in the state changes, and no further envelope from the
spectator is needed. -/
theorem spectator_request_replay :
    ∀ (s : HostState) (msg : Msg) (a : Addr),
      msg.message_type = some "SPECTATOR_REQUEST" →
      hostHandle s msg a =
        ({ s with spectators := s.spectators ++ [a] },
         match s.joiner_pokemon_row with
         | some jrow =>
             [(a, { message_type := some "HANDSHAKE_RESPONSE",
                    seed := some s.seed, role := some "spectator" }),
              (a, { message_type := some "BATTLE_SETUP",
                    pokemon_name := s.joiner_pokemon_name,
                    pokemon := some jrow }),
              (a, { message_type := some "BATTLE_SETUP",
                    pokemon_name := some s.local_pokemon_name,
                    pokemon := some s.local_pokemon_row })]
         | none =>
             [(a, { message_type := some "HANDSHAKE_RESPONSE",
                    seed := some s.seed, role := some "spectator" })]) := by
  intro s msg a hmt
  unfold hostHandle
  rw [hmt]
  simp only [Option.some.injEq, String.reduceEq, reduceIte]
  split <;> rfl

/-- C8 witness: the scenario Host (joiner setup known) replays both
setups, joiner's first, to a fresh spectator. -/
theorem spectator_request_replay_witness :
    hostHandle scenarioHost { message_type := some "SPECTATOR_REQUEST" } "spec1" =
      ({ scenarioHost with spectators := ["spec1"] },
       [("spec1", { message_type := some "HANDSHAKE_RESPONSE",
                    seed := some 42, role := some "spectator" }),
        ("spec1", { message_type := some "BATTLE_SETUP",
                    pokemon_name := some "Charmander",
                    pokemon := some charmanderRow }),
        ("spec1", { message_type := some "BATTLE_SETUP",
                    pokemon_name := some "Bulbasaur",
                    pokemon := some bulbasaurRow })]) :=
  spectator_request_replay scenarioHost
    { message_type := some "SPECTATOR_REQUEST" } "spec1" rfl

/-! ### C10 -/

/-- A BATTLE_SETUP envelope whose pokemon_name is the empty string. -/
def emptyNameSetupMsg : Msg :=
  { message_type := some "BATTLE_SETUP", pokemon_name := some "",
    pokemon := some charmanderRow }

/-- A BATTLE_SETUP envelope describing Pikachu. -/
def pikachuSetupMsg : Msg :=
  { message_type := some "BATTLE_SETUP", pokemon_name := some "Pikachu",
    pokemon := some pikachuRow }

/-- A freshly created spectator session (nothing recorded yet). -/
def spectatorStart : SpectatorState := ⟨none, none, none, none⟩

/-- C10 counterexample: arrival order alone does not decide the slots.
When the first BATTLE_SETUP carries an empty name, the second BATTLE_SETUP
is also recorded as the Host's combatant (the Joiner slot stays empty),
because the guard tests the stored host name's truthiness, not whether a
setup was received before. -/
theorem spectator_second_setup_not_joiner :
    (spectatorHandle (spectatorHandle spectatorStart emptyNameSetupMsg)
        pikachuSetupMsg).joiner_pokemon_name = none ∧
    (spectatorHandle (spectatorHandle spectatorStart emptyNameSetupMsg)
        pikachuSetupMsg).host_pokemon_name = some "Pikachu" := by
  decide

/-- C10 (amended): a Spectator records a BATTLE_SETUP as the Host's
combatant (name and hit points) exactly while its stored host name is
still absent or empty, and as the Joiner's combatant once a truthy host
name is stored — so when the first received BATTLE_SETUP carries a
non-empty name, the first fills the Host slot and every later one the
Joiner slot, purely by arrival order and regardless of which combatant
the envelope actually describes. -/
theorem spectator_setup_order :
    (∀ (s : SpectatorState) (msg : Msg),
       msg.message_type = some "BATTLE_SETUP" →
       strFalsy s.host_pokemon_name = true →
       spectatorHandle s msg =
         { s with host_pokemon_name := msg.pokemon_name,
                  host_hp := msg.pokemon.map (fun p => p.hp) }) ∧
    (∀ (s : SpectatorState) (msg : Msg),
       msg.message_type = some "BATTLE_SETUP" →
       strFalsy s.host_pokemon_name = false →
       spectatorHandle s msg =
         { s with joiner_pokemon_name := msg.pokemon_name,
                  joiner_hp := msg.pokemon.map (fun p => p.hp) }) := by
  constructor
  · intro s msg hmt hfal
    unfold spectatorHandle
    rw [hmt]
    simp only [Option.some.injEq, String.reduceEq, reduceIte, hfal, if_true]
  · intro s msg hmt hfal
    unfold spectatorHandle
    rw [hmt]
    simp only [Option.some.injEq, String.reduceEq, reduceIte, hfal,
      Bool.false_eq_true, if_false]

/-- C10 witness: the first (non-empty-named) setup fills the Host slot of
a fresh spectator; the next setup then fills the Joiner slot. -/
theorem spectator_setup_order_witness :
    spectatorHandle spectatorStart pikachuSetupMsg =
      { spectatorStart with host_pokemon_name := some "Pikachu",
                            host_hp := some 35 } ∧
    spectatorHandle (spectatorHandle spectatorStart pikachuSetupMsg)
        emptyNameSetupMsg =
      { spectatorHandle spectatorStart pikachuSetupMsg with
          joiner_pokemon_name := some "",
          joiner_hp := some 39 } :=
  ⟨spectator_setup_order.1 spectatorStart pikachuSetupMsg rfl rfl,
   spectator_setup_order.2 (spectatorHandle spectatorStart pikachuSetupMsg)
      emptyNameSetupMsg rfl (by decide)⟩
